import Mathlib

/-!
# MTC4SB (MattzoTrainController for SBrick): the control loop of `main.cpp`

A shallow embedding of `MTC4SB/src/main.cpp`.  The sketch drives a fixed array of
two SBrick hubs from `loop()`; everything it calls on a hub, on the scanner, on the
MQTT publisher and on the platform lives in headers that are not part of the
sources at hand (`SBrickHubClient.h`, `MattzoMQTTPublisher.h`, `Arduino.h`, ...).

* The external calls are the fields of `Env`: an arbitrary world type `W`, observers
  `W → Bool` and state transformers `W → W`.  Theorems about `loop` and `setup`
  quantify over every `Env`, so they hold whatever the hubs, the radio and the
  queue do.
* Every external call is also recorded as an `Event`; `loop` and `setup` return the
  new world together with the list of calls they made, in program order.
* `Sim` is one concrete `Env` (scripted scan and connect outcomes) on which the
  definitions are evaluated.
* `OutboundQueue` is the bounded FIFO behind the publisher, which main.cpp only calls.

`mqttCallback` (lines 57-67) only prints the message it receives and is not modelled.
-/

namespace MTC4SB

/-! ## Data model -/

/-- The constructor arguments of `new SBrickHubClient(name, address)`. -/
structure SBrickHubClient where
  deviceName : String
  deviceAddress : String
  deriving DecidableEq, Repr, Inhabited

/-- The value of a `NimBLEScan *` pointer. -/
abbrev NimBLEScan := Nat

/-- The array `SBrickHubClient *mySBricks[2]` (main.cpp 19-23). -/
def mySBricks : Array SBrickHubClient :=
  #[⟨"YC66405", "00:07:80:d0:47:43"⟩, ⟨"HE10233", "00:07:80:d0:3a:f2"⟩]

/-- The macro `#define MATTZO_CONTROLLER_TYPE "MTC4SB"`. -/
def MATTZO_CONTROLLER_TYPE : String := "MTC4SB"

/-- The constant `const int8_t WATCHDOG_TIMEOUT_IN_TENS_OF_SECONDS = 20;` (main.cpp 55). -/
def WATCHDOG_TIMEOUT_IN_TENS_OF_SECONDS : Int := 20

/-- Modulus of `uint32_t` arithmetic. -/
def UINT32_MOD : Nat := 2 ^ 32

/-- The mutable globals of main.cpp (lines 18 and 28-43). -/
structure Globals where
  scanner : NimBLEScan
  ENABLE_MQTT : Bool
  MQTT_QUEUE_LENGTH : Int
  BLE_SCAN_DURATION_IN_SECONDS : Nat
  BLE_CONNECT_DELAY_IN_SECONDS : Nat
  deriving DecidableEq, Repr

/-- The initial values of the globals as main.cpp declares them; `scanner` is a null
pointer until `setup` assigns it. -/
def initialGlobals : Globals :=
  { scanner := 0
    ENABLE_MQTT := false
    MQTT_QUEUE_LENGTH := 1000
    BLE_SCAN_DURATION_IN_SECONDS := 1
    BLE_CONNECT_DELAY_IN_SECONDS := 5 }

/-- The globals once `setup` has stored the scanner, with the publishing flag as
configured (`false` in the source). -/
def configured (scanner : NimBLEScan) (enableMqtt : Bool) : Globals :=
  { initialGlobals with scanner := scanner, ENABLE_MQTT := enableMqtt }

/-- One external call made by `setup` or `loop`, with its arguments. -/
inductive Event where
  | IsConnected (sbrick : SBrickHubClient)
  | IsDiscovered (sbrick : SBrickHubClient)
  | Drive (sbrick : SBrickHubClient) (a b c d : Int)
  | StartDiscovery (sbrick : SBrickHubClient) (scanner : NimBLEScan) (scanDurationInSeconds : Nat)
  | Connect (sbrick : SBrickHubClient) (watchdogTimeout : Int)
  | QueueMessage (message : String)
  | delay (ms : Nat)
  | println (line : String)
  | print (text : String)
  | SerialBegin (baud : Nat)
  | setupMattzoController (controllerType : String)
  | PublisherSetup (queueLength : Int)
  | SubscriberSetup (topic : String)
  | NimBLEDeviceInit (deviceName : String)
  | getScan
  | setInterval (scanner : NimBLEScan) (intervalMSecs : Nat)
  | setWindow (scanner : NimBLEScan) (windowMSecs : Nat)
  | setActiveScan (scanner : NimBLEScan) (active : Bool)
  deriving DecidableEq, Repr

/-- Everything main.cpp calls but does not define.  `W` is the state of the world
outside the sketch (hubs, radio, queue, clock).  The two hub observers are taken to be free
of side effects (spec 4.1: "pure observers, no side effects"); every other call may change
the world in any way, and `delay` in particular stands for whatever happens between two
sweeps.  Serial output is recorded in the trace and does not act on `W`. -/
structure Env (W : Type) where
  /-- Call `SBrickHubClient::IsConnected()`, an observer. -/
  IsConnected : SBrickHubClient → W → Bool
  /-- Call `SBrickHubClient::IsDiscovered()`, an observer. -/
  IsDiscovered : SBrickHubClient → W → Bool
  /-- Call `SBrickHubClient::Drive(a, b, c, d)`. -/
  Drive : SBrickHubClient → Int → Int → Int → Int → W → W
  /-- Call `SBrickHubClient::StartDiscovery(scanner, scanDurationInSeconds)`. -/
  StartDiscovery : SBrickHubClient → NimBLEScan → Nat → W → W
  /-- Call `SBrickHubClient::Connect(watchdogTimeout)`; the Boolean is its return value. -/
  Connect : SBrickHubClient → Int → W → Bool × W
  /-- Call `MattzoMQTTPublisher::QueueMessage(message)`; the Boolean is its return value. -/
  QueueMessage : String → W → Bool × W
  /-- Call `millis()`. -/
  millis : W → Nat
  /-- Call `xPortGetCoreID()`. -/
  xPortGetCoreID : W → Nat
  /-- Call `delay(ms)`. -/
  delay : Nat → W → W
  /-- The platform constant `portTICK_PERIOD_MS` (a `TickType_t`, 32 bits unsigned). -/
  portTICK_PERIOD_MS : Nat
  /-- Call `setupMattzoController(type)`. -/
  setupMattzoController : String → W → W
  /-- Call `MattzoMQTTPublisher::Setup(queueLength)`. -/
  PublisherSetup : Int → W → W
  /-- Call `MattzoMQTTSubscriber::Setup(topic, callback)`. -/
  SubscriberSetup : String → W → W
  /-- Call `NimBLEDevice::init(deviceName)`. -/
  NimBLEDeviceInit : String → W → W
  /-- Call `NimBLEDevice::getScan()`. -/
  getScan : W → NimBLEScan
  /-- Calls `scanner->setInterval`, `setWindow`, `setActiveScan`: one hook for the three
  scanner parameter calls, given the event that describes the call. -/
  configureScan : Event → W → W

variable {W : Type}

/-- The prefix of every line main.cpp prints: `"[" + String(xPortGetCoreID()) + "] "`
followed by the text. -/
def logLine (env : Env W) (w : W) (text : String) : String :=
  "[" ++ toString (env.xPortGetCoreID w) ++ "] " ++ text

/-! ## `loop()` -/

/-- Lines 118-122: `if (!sbrick->IsDiscovered()) sbrick->StartDiscovery(scanner, ...)`. -/
def discoverStep (env : Env W) (g : Globals) (sbrick : SBrickHubClient) (w : W) :
    W × List Event :=
  if !env.IsDiscovered sbrick w then
    (env.StartDiscovery sbrick g.scanner g.BLE_SCAN_DURATION_IN_SECONDS w,
      [Event.IsDiscovered sbrick,
        Event.StartDiscovery sbrick g.scanner g.BLE_SCAN_DURATION_IN_SECONDS])
  else
    (w, [Event.IsDiscovered sbrick])

/-- Lines 124-132: `if (sbrick->IsDiscovered()) { if (!sbrick->Connect(WATCHDOG...)) println }`. -/
def connectStep (env : Env W) (sbrick : SBrickHubClient) (w : W) : W × List Event :=
  if env.IsDiscovered sbrick w then
    let r := env.Connect sbrick WATCHDOG_TIMEOUT_IN_TENS_OF_SECONDS w
    if !r.1 then
      (r.2, [Event.IsDiscovered sbrick,
              Event.Connect sbrick WATCHDOG_TIMEOUT_IN_TENS_OF_SECONDS,
              Event.println (logLine env r.2 "Loop: Connect failed")])
    else
      (r.2, [Event.IsDiscovered sbrick,
              Event.Connect sbrick WATCHDOG_TIMEOUT_IN_TENS_OF_SECONDS])
  else
    (w, [Event.IsDiscovered sbrick])

/-- The body of the `for` loop (lines 109-133) for one hub. -/
def loopBody (env : Env W) (g : Globals) (sbrick : SBrickHubClient) (w : W) :
    W × List Event :=
  if env.IsConnected sbrick w then
    (env.Drive sbrick (-75) (-75) 75 75 w,
      [Event.IsConnected sbrick, Event.Drive sbrick (-75) (-75) 75 75])
  else
    let d := discoverStep env g sbrick w
    let c := connectStep env sbrick d.1
    (c.1, Event.IsConnected sbrick :: (d.2 ++ c.2))

/-- The `for` loop of lines 107-134, entered with loop variable `i`:
`for (; i < sizeof(mySBricks) / sizeof(mySBricks[0]); i++) { body(mySBricks[i]) }`. -/
def loopFrom (env : Env W) (g : Globals) (i : Nat) (w : W) : W × List Event :=
  if h : i < mySBricks.size then
    let sbrick := mySBricks[i]
    let r := loopBody env g sbrick w
    let rest := loopFrom env g (i + 1) r.1
    (rest.1, r.2 ++ rest.2)
  else
    (w, [])
termination_by mySBricks.size - i

/-- Lines 136-149: the optional status message. -/
def publishStep (env : Env W) (g : Globals) (w : W) : W × List Event :=
  if g.ENABLE_MQTT then
    let message := "Hello world @ " ++ toString (env.millis w)
    let r := env.QueueMessage message w
    if !r.1 then
      (r.2, [Event.println (logLine env w ("Loop: Queing message (" ++ message ++ ").")),
              Event.QueueMessage message,
              Event.println (logLine env r.2 "Loop: Queue full")])
    else
      (r.2, [Event.println (logLine env w ("Loop: Queing message (" ++ message ++ ").")),
              Event.QueueMessage message])
  else
    (w, [])

/-- The argument of the final `delay` (line 156):
`BLE_CONNECT_DELAY_IN_SECONDS * 1000 / portTICK_PERIOD_MS` in `uint32_t`.  A tick period of
0 is a division by zero in C; here the quotient is then 0. -/
def loopDelay (env : Env W) (g : Globals) : Nat :=
  (g.BLE_CONNECT_DELAY_IN_SECONDS * 1000 % UINT32_MOD) / env.portTICK_PERIOD_MS % UINT32_MOD

/-- One call of `loop()` (main.cpp 105-157): the new world and the calls made. -/
def loop (env : Env W) (g : Globals) (w : W) : W × List Event :=
  let s := loopFrom env g 0 w
  let p := publishStep env g s.1
  (env.delay (loopDelay env g) p.1, s.2 ++ p.2 ++ [Event.delay (loopDelay env g)])

/-! ## `setup()` -/

/-- Lines 82-88: the publisher and subscriber are set up only when `ENABLE_MQTT`. -/
def setupMqtt (env : Env W) (g : Globals) (w : W) : W × List Event :=
  if g.ENABLE_MQTT then
    (env.SubscriberSetup "rocrail/service/command" (env.PublisherSetup g.MQTT_QUEUE_LENGTH w),
      [Event.PublisherSetup g.MQTT_QUEUE_LENGTH,
        Event.SubscriberSetup "rocrail/service/command"])
  else
    (w, [])

/-- The function `setup()` (main.cpp 69-103): the globals with `scanner` assigned, the new
world and the calls made. -/
def setup (env : Env W) (g : Globals) (w : W) : Globals × W × List Event :=
  let startDelay := (1000 / env.portTICK_PERIOD_MS) % UINT32_MOD
  let w1 := env.delay startDelay w
  let w2 := env.setupMattzoController MATTZO_CONTROLLER_TYPE w1
  let m := setupMqtt env g w2
  let w3 := env.NimBLEDeviceInit "" m.1
  let scanner := env.getScan w3
  let w4 := env.configureScan (Event.setInterval scanner 1349) w3
  let w5 := env.configureScan (Event.setWindow scanner 449) w4
  let w6 := env.configureScan (Event.setActiveScan scanner true) w5
  ({ g with scanner := scanner }, w6,
    [Event.SerialBegin 115200, Event.delay startDelay, Event.println "",
      Event.println (logLine env w1 "Ctrl: Starting MattzoTrainController for SBrick..."),
      Event.setupMattzoController MATTZO_CONTROLLER_TYPE]
    ++ m.2 ++
    [Event.println (logLine env m.1 "Setup: Initializing BLE..."),
      Event.NimBLEDeviceInit "", Event.getScan,
      Event.setInterval scanner 1349, Event.setWindow scanner 449,
      Event.setActiveScan scanner true,
      Event.print (logLine env w6 "Setup: Number of SBrick(s) to discover: "),
      Event.println (toString mySBricks.size)])

/-! ## The outbound queue -/

/-- Modelled from the spec: the bounded outbound queue that `MattzoMQTTPublisher::Setup`
creates and `MattzoMQTTPublisher::QueueMessage` fills (`MattzoMQTTPublisher.h` is not
among the sources).  Spec 3: "an ordered sequence of messages (FIFO), bounded capacity N".
The oldest message is the head of `messages`. -/
structure OutboundQueue where
  capacity : Nat
  messages : List String
  deriving DecidableEq, Repr

namespace OutboundQueue

/-- Modelled from the spec: the queue "created once at startup" with capacity `n`, empty. -/
def create (n : Nat) : OutboundQueue :=
  { capacity := n, messages := [] }

/-- Modelled from the spec: `enqueue(message) -> accepted | rejected(QueueFull)`; "enqueue on
a full queue fails without blocking and without growing the queue", "never evicts older
messages", otherwise the message goes to the back. -/
def enqueue (q : OutboundQueue) (message : String) : Bool × OutboundQueue :=
  if q.messages.length < q.capacity then
    (true, { q with messages := q.messages ++ [message] })
  else
    (false, q)

/-- Modelled from the spec: `dequeue() -> message | empty`, taking the oldest message. -/
def dequeue (q : OutboundQueue) : Option String × OutboundQueue :=
  match q.messages with
  | [] => (none, q)
  | m :: rest => (some m, { q with messages := rest })

/-- An operation of the producer or of the consumer on the queue. -/
inductive Op where
  | enq (message : String)
  | deq
  deriving DecidableEq, Repr

/-- The queue after one operation. -/
def step (q : OutboundQueue) : Op → OutboundQueue
  | Op.enq m => (q.enqueue m).2
  | Op.deq => q.dequeue.2

/-- The queue after a sequence of operations, oldest first. -/
def run (q : OutboundQueue) (ops : List Op) : OutboundQueue :=
  ops.foldl step q

end OutboundQueue

/-! ## Reading a trace -/

/-- The two configured hubs, by position in `mySBricks`. -/
def hubA : SBrickHubClient := ⟨"YC66405", "00:07:80:d0:47:43"⟩

/-- The second configured hub. -/
def hubB : SBrickHubClient := ⟨"HE10233", "00:07:80:d0:3a:f2"⟩

/-- The hub a call is made on, for the five `SBrickHubClient` methods. -/
def Event.hub? : Event → Option SBrickHubClient
  | Event.IsConnected h => some h
  | Event.IsDiscovered h => some h
  | Event.Drive h _ _ _ _ => some h
  | Event.StartDiscovery h _ _ => some h
  | Event.Connect h _ => some h
  | _ => none

/-- The calls of a trace made on hub `h`, in order. -/
def hubEvents (h : SBrickHubClient) (tr : List Event) : List Event :=
  tr.filter fun e => decide (e.hub? = some h)

/-- The calls of a trace made on any hub, in order. -/
def hubOps (tr : List Event) : List Event :=
  tr.filter fun e => e.hub?.isSome

/-- Whether a call is `StartDiscovery`. -/
def Event.isStartDiscovery : Event → Bool
  | Event.StartDiscovery _ _ _ => true
  | _ => false

/-- Whether a call is `IsConnected`. -/
def Event.isIsConnected : Event → Bool
  | Event.IsConnected _ => true
  | _ => false

/-- Whether a call is `Drive`. -/
def Event.isDrive : Event → Bool
  | Event.Drive _ _ _ _ _ => true
  | _ => false

/-- Whether a call is `QueueMessage`. -/
def Event.isQueueMessage : Event → Bool
  | Event.QueueMessage _ => true
  | _ => false

/-- Whether a call is `delay`. -/
def Event.isDelay : Event → Bool
  | Event.delay _ => true
  | _ => false

/-- Whether a call sets up the MQTT publisher or subscriber. -/
def Event.isMqttSetup : Event → Bool
  | Event.PublisherSetup _ => true
  | Event.SubscriberSetup _ => true
  | _ => false

/-- The world in which the `for` loop examines hub number `i`: the world `loop` starts in,
changed by the bodies of the hubs before it. -/
def worldAtTurn (env : Env W) (g : Globals) : Nat → W → W
  | 0, w => w
  | i + 1, w => (loopBody env g (mySBricks.getD i default) (worldAtTurn env g i w)).1

/-- The world after `n` calls of `loop`. -/
def worldAfter (env : Env W) (g : Globals) : Nat → W → W
  | 0, w => w
  | n + 1, w => (loop env g (worldAfter env g n w)).1

/-- The calls made by call number `n + 1` of `loop` (tick `n + 1`). -/
def tickTrace (env : Env W) (g : Globals) (n : Nat) (w : W) : List Event :=
  (loop env g (worldAfter env g n w)).2

/-! ## Scripted hubs -/

namespace Sim

/-- A scripted hub: its two flags and the outcomes of its future scans and connection
attempts (`true` is a match, respectively a success; an exhausted script fails). -/
structure Hub where
  connected : Bool
  discovered : Bool
  scans : List Bool
  connects : List Bool
  deriving DecidableEq, Repr

/-- The scripted world: the hubs, the outbound queue once it is set up, and the clock. -/
structure World where
  hub : SBrickHubClient → Hub
  queue : Option OutboundQueue
  clock : Nat

/-- Replace the state of hub `h`. -/
def World.setHub (w : World) (h : SBrickHubClient) (s : Hub) : World :=
  { w with hub := fun k => if k = h then s else w.hub k }

/-- A scan request blocks for the scan duration and returns with the next scripted outcome
recorded in the hub. -/
def startDiscovery (h : SBrickHubClient) (duration : Nat) (w : World) : World :=
  let s := w.hub h
  { w.setHub h { s with discovered := s.scans.headD false, scans := s.scans.tail } with
    clock := w.clock + duration * 1000 }

/-- A connection attempt returns the next scripted outcome; a success makes the hub
connected. -/
def connect (h : SBrickHubClient) (w : World) : Bool × World :=
  let s := w.hub h
  let ok := s.connects.headD false
  (ok, w.setHub h { s with connected := s.connected || ok, connects := s.connects.tail })

/-- Queueing a message enqueues it in the outbound queue, and fails when there is none. -/
def queueMessage (m : String) (w : World) : Bool × World :=
  match w.queue with
  | none => (false, w)
  | some q => ((q.enqueue m).1, { w with queue := some (q.enqueue m).2 })

/-- The scripted environment, for a platform with tick period `tickPeriod`. -/
def env (tickPeriod : Nat) : Env World where
  IsConnected h w := (w.hub h).connected
  IsDiscovered h w := (w.hub h).discovered
  Drive _ _ _ _ _ w := w
  StartDiscovery h _ duration w := startDiscovery h duration w
  Connect h _ w := connect h w
  QueueMessage m w := queueMessage m w
  millis w := w.clock
  xPortGetCoreID _ := 1
  delay ms w := { w with clock := w.clock + ms }
  portTICK_PERIOD_MS := tickPeriod
  setupMattzoController _ w := w
  PublisherSetup n w := { w with queue := some (OutboundQueue.create n.toNat) }
  SubscriberSetup _ w := w
  NimBLEDeviceInit _ w := w
  getScan _ := 1
  configureScan _ w := w

/-- A hub that is neither discovered nor connected, with the given scripts. -/
def idle (scans connects : List Bool) : Hub :=
  { connected := false, discovered := false, scans := scans, connects := connects }

/-- A world of two hubs `a` (for `hubA`) and `b` (for every other hub), no queue, clock 0. -/
def world (a b : Hub) : World :=
  { hub := fun k => if k = hubA then a else b, queue := none, clock := 0 }

/-- A hub that is discovered but not connected, with the given connect script. -/
def found (connects : List Bool) : Hub :=
  { connected := false, discovered := true, scans := [], connects := connects }

/-- The first hub is discovered and its next connection attempt succeeds. -/
def connectSucceeds : World := world (found [true]) (idle [] [])

/-- The first hub is discovered and its next two connection attempts fail. -/
def connectFails : World := world (found [false, false]) (idle [] [])

/-- Both hubs need discovery and no scan ever matches. -/
def bothIdle : World := world (idle [] []) (idle [] [])

/-- The first hub needs discovery, its first two scans time out. -/
def scanTimesOut : World := world (idle [false, false] [true]) (found [true])

/-- The two-hub scenario: the scan of the first hub times out in tick 1 and matches in
tick 2, that of the second hub matches in tick 3; every first connection attempt succeeds. -/
def scenario : World := world (idle [false, true] [true]) (idle [false, false, true] [true])

end Sim

/-! ## Unfolding the sweep -/

theorem mySBricks_eq : mySBricks = #[hubA, hubB] := rfl

theorem hubA_ne_hubB : hubA ≠ hubB := by decide

theorem loopFrom_two (env : Env W) (g : Globals) (w : W) : loopFrom env g 2 w = (w, []) := by
  rw [loopFrom]; simp [mySBricks]

theorem loopFrom_one (env : Env W) (g : Globals) (w : W) :
    loopFrom env g 1 w = loopBody env g hubB w := by
  rw [loopFrom]; simp [mySBricks, loopFrom_two, hubB]

theorem loopFrom_zero (env : Env W) (g : Globals) (w : W) :
    loopFrom env g 0 w =
      ((loopBody env g hubB (loopBody env g hubA w).1).1,
        (loopBody env g hubA w).2 ++ (loopBody env g hubB (loopBody env g hubA w).1).2) := by
  rw [loopFrom]; simp [mySBricks, loopFrom_one, hubA]

/-! ## One hub's block, case by case -/

theorem loopBody_connected (env : Env W) (g : Globals) (s : SBrickHubClient) (w : W)
    (hc : env.IsConnected s w = true) :
    loopBody env g s w =
      (env.Drive s (-75) (-75) 75 75 w,
        [Event.IsConnected s, Event.Drive s (-75) (-75) 75 75]) := by
  simp [loopBody, hc]

theorem loopBody_discovered (env : Env W) (g : Globals) (s : SBrickHubClient) (w : W)
    (hc : env.IsConnected s w = false) (hd : env.IsDiscovered s w = true) :
    loopBody env g s w =
      ((env.Connect s 20 w).2,
        [Event.IsConnected s, Event.IsDiscovered s, Event.IsDiscovered s, Event.Connect s 20]
          ++ if (env.Connect s 20 w).1 then []
             else [Event.println (logLine env (env.Connect s 20 w).2 "Loop: Connect failed")]) := by
  cases hr : (env.Connect s 20 w).1 <;>
    simp [loopBody, discoverStep, connectStep, hc, hd, hr, WATCHDOG_TIMEOUT_IN_TENS_OF_SECONDS]

theorem loopBody_scan_match (env : Env W) (g : Globals) (s : SBrickHubClient) (w : W)
    (hc : env.IsConnected s w = false) (hd : env.IsDiscovered s w = false)
    (hm : env.IsDiscovered s
      (env.StartDiscovery s g.scanner g.BLE_SCAN_DURATION_IN_SECONDS w) = true) :
    loopBody env g s w =
      ((env.Connect s 20 (env.StartDiscovery s g.scanner g.BLE_SCAN_DURATION_IN_SECONDS w)).2,
        [Event.IsConnected s, Event.IsDiscovered s,
          Event.StartDiscovery s g.scanner g.BLE_SCAN_DURATION_IN_SECONDS,
          Event.IsDiscovered s, Event.Connect s 20]
          ++ if (env.Connect s 20
                  (env.StartDiscovery s g.scanner g.BLE_SCAN_DURATION_IN_SECONDS w)).1 then []
             else [Event.println (logLine env
                    (env.Connect s 20
                      (env.StartDiscovery s g.scanner g.BLE_SCAN_DURATION_IN_SECONDS w)).2
                    "Loop: Connect failed")]) := by
  cases hr : (env.Connect s 20
      (env.StartDiscovery s g.scanner g.BLE_SCAN_DURATION_IN_SECONDS w)).1 <;>
    simp [loopBody, discoverStep, connectStep, hc, hd, hm, hr,
      WATCHDOG_TIMEOUT_IN_TENS_OF_SECONDS]

theorem loopBody_scan_timeout (env : Env W) (g : Globals) (s : SBrickHubClient) (w : W)
    (hc : env.IsConnected s w = false) (hd : env.IsDiscovered s w = false)
    (hm : env.IsDiscovered s
      (env.StartDiscovery s g.scanner g.BLE_SCAN_DURATION_IN_SECONDS w) = false) :
    loopBody env g s w =
      (env.StartDiscovery s g.scanner g.BLE_SCAN_DURATION_IN_SECONDS w,
        [Event.IsConnected s, Event.IsDiscovered s,
          Event.StartDiscovery s g.scanner g.BLE_SCAN_DURATION_IN_SECONDS,
          Event.IsDiscovered s]) := by
  simp [loopBody, discoverStep, connectStep, hc, hd, hm]

/-! ## The calls made on one hub -/

theorem hubEvents_append (h : SBrickHubClient) (xs ys : List Event) :
    hubEvents h (xs ++ ys) = hubEvents h xs ++ hubEvents h ys := by
  simp [hubEvents]

theorem hubOps_append (xs ys : List Event) : hubOps (xs ++ ys) = hubOps xs ++ hubOps ys := by
  simp [hubOps]

theorem hubEvents_loopBody_other (env : Env W) (g : Globals) (h s : SBrickHubClient) (w : W)
    (hne : s ≠ h) : hubEvents h (loopBody env g s w).2 = [] := by
  simp only [loopBody, discoverStep, connectStep, hubEvents]
  split_ifs <;> simp [Event.hub?, hne]

theorem hubEvents_publishStep (env : Env W) (g : Globals) (h : SBrickHubClient) (w : W) :
    hubEvents h (publishStep env g w).2 = [] := by
  simp only [publishStep, hubEvents]
  split_ifs <;> simp [Event.hub?]

theorem hubOps_publishStep (env : Env W) (g : Globals) (w : W) :
    hubOps (publishStep env g w).2 = [] := by
  simp only [publishStep, hubOps]
  split_ifs <;> simp [Event.hub?]

theorem loop_trace (env : Env W) (g : Globals) (w : W) :
    (loop env g w).2 =
      (loopBody env g hubA w).2 ++ (loopBody env g hubB (loopBody env g hubA w).1).2
        ++ (publishStep env g (loopBody env g hubB (loopBody env g hubA w).1).1).2
        ++ [Event.delay (loopDelay env g)] := by
  simp [loop, loopFrom_zero]

theorem loop_world (env : Env W) (g : Globals) (w : W) :
    (loop env g w).1 =
      env.delay (loopDelay env g)
        (publishStep env g (loopBody env g hubB (loopBody env g hubA w).1).1).1 := by
  simp [loop, loopFrom_zero]

theorem hubEvents_loop (env : Env W) (g : Globals) (h : SBrickHubClient) (w : W) :
    hubEvents h (loop env g w).2 =
      hubEvents h (loopBody env g hubA w).2
        ++ hubEvents h (loopBody env g hubB (loopBody env g hubA w).1).2 := by
  rw [loop_trace]
  simp [hubEvents_append, hubEvents_publishStep]
  simp [hubEvents, Event.hub?]

/-- The calls `loop` makes on a configured hub are those of that hub's own block, run in the
world of its turn. -/
theorem hubEvents_loop_turn (env : Env W) (g : Globals) (w : W) (i : Fin mySBricks.size) :
    hubEvents mySBricks[i] (loop env g w).2 =
      hubEvents mySBricks[i] (loopBody env g mySBricks[i] (worldAtTurn env g i w)).2 := by
  obtain ⟨i, hi⟩ := i
  have h2 : i = 0 ∨ i = 1 := by
    have : i < 2 := hi
    omega
  rcases h2 with rfl | rfl
  · have : mySBricks[(⟨0, hi⟩ : Fin mySBricks.size)] = hubA := rfl
    rw [this, hubEvents_loop, hubEvents_loopBody_other env g hubA hubB _ hubA_ne_hubB.symm]
    simp [worldAtTurn]
  · have : mySBricks[(⟨1, hi⟩ : Fin mySBricks.size)] = hubB := rfl
    rw [this, hubEvents_loop, hubEvents_loopBody_other env g hubB hubA _ hubA_ne_hubB]
    have h0 : mySBricks.getD 0 default = hubA := rfl
    simp [worldAtTurn, h0]

theorem hubOps_loop (env : Env W) (g : Globals) (w : W) :
    hubOps (loop env g w).2 =
      hubOps (loopBody env g hubA w).2
        ++ hubOps (loopBody env g hubB (loopBody env g hubA w).1).2 := by
  rw [loop_trace]
  simp [hubOps_append, hubOps_publishStep]
  simp [hubOps, Event.hub?]

theorem hub_of_loopBody_event (env : Env W) (g : Globals) (s : SBrickHubClient) (w : W)
    (e : Event) (he : e ∈ hubOps (loopBody env g s w).2) : e.hub? = some s := by
  have hEq : hubOps (loopBody env g s w).2 = hubEvents s (loopBody env g s w).2 := by
    simp only [loopBody, discoverStep, connectStep, hubOps, hubEvents]
    split_ifs <;> simp [Event.hub?]
  rw [hEq] at he
  simpa using (List.mem_filter.mp he).2

theorem isConnected_calls_loopBody (env : Env W) (g : Globals) (s : SBrickHubClient) (w : W) :
    (loopBody env g s w).2.filter Event.isIsConnected = [Event.IsConnected s] := by
  simp only [loopBody, discoverStep, connectStep]
  split_ifs <;> simp [Event.isIsConnected]

theorem isConnected_calls_publishStep (env : Env W) (g : Globals) (w : W) :
    (publishStep env g w).2.filter Event.isIsConnected = [] := by
  simp only [publishStep]
  split_ifs <;> simp [Event.isIsConnected]

/-! ## Turns -/

theorem worldAtTurn_zero (env : Env W) (g : Globals) (w : W) : worldAtTurn env g 0 w = w := rfl

theorem worldAtTurn_one (env : Env W) (g : Globals) (w : W) :
    worldAtTurn env g 1 w = (loopBody env g hubA w).1 := rfl

/-- A property of the configured hubs holds for each as soon as it holds for the first and
for the second. -/
theorem forall_turn (P : Fin mySBricks.size → Prop)
    (h0 : P ⟨0, by decide⟩) (h1 : P ⟨1, by decide⟩) : ∀ i, P i := by
  rintro ⟨i, hi⟩
  have h2 : i = 0 ∨ i = 1 := by
    have : i < 2 := hi
    omega
  rcases h2 with rfl | rfl
  · exact h0
  · exact h1

theorem mem_hubEvents (h : SBrickHubClient) (tr : List Event) (e : Event) :
    e ∈ hubEvents h tr ↔ e ∈ tr ∧ e.hub? = some h := by
  simp [hubEvents]

theorem drive_mem_loopBody (env : Env W) (g : Globals) (s h : SBrickHubClient) (w : W)
    (a b c d : Int) :
    Event.Drive h a b c d ∈ (loopBody env g s w).2 ↔
      h = s ∧ env.IsConnected s w = true ∧ a = -75 ∧ b = -75 ∧ c = 75 ∧ d = 75 := by
  simp only [loopBody, discoverStep, connectStep]
  split_ifs <;> simp_all

theorem drive_not_mem_publishStep (env : Env W) (g : Globals) (w : W)
    (h : SBrickHubClient) (a b c d : Int) :
    Event.Drive h a b c d ∉ (publishStep env g w).2 := by
  simp only [publishStep]
  split_ifs <;> simp

theorem drive_mem_loop (env : Env W) (g : Globals) (w : W) (h : SBrickHubClient)
    (a b c d : Int) :
    Event.Drive h a b c d ∈ (loop env g w).2 ↔
      (h = hubA ∧ env.IsConnected hubA (worldAtTurn env g 0 w) = true
          ∧ a = -75 ∧ b = -75 ∧ c = 75 ∧ d = 75)
      ∨ (h = hubB ∧ env.IsConnected hubB (worldAtTurn env g 1 w) = true
          ∧ a = -75 ∧ b = -75 ∧ c = 75 ∧ d = 75) := by
  rw [loop_trace]
  simp [drive_mem_loopBody, drive_not_mem_publishStep, worldAtTurn_zero, worldAtTurn_one]

theorem hubEvents_self_connected (env : Env W) (g : Globals) (s : SBrickHubClient) (w : W)
    (hc : env.IsConnected s w = true) :
    hubEvents s (loopBody env g s w).2 =
      [Event.IsConnected s, Event.Drive s (-75) (-75) 75 75] := by
  rw [loopBody_connected env g s w hc]; simp [hubEvents, Event.hub?]

theorem hubEvents_self_discovered (env : Env W) (g : Globals) (s : SBrickHubClient) (w : W)
    (hc : env.IsConnected s w = false) (hd : env.IsDiscovered s w = true) :
    hubEvents s (loopBody env g s w).2 =
      [Event.IsConnected s, Event.IsDiscovered s, Event.IsDiscovered s, Event.Connect s 20] := by
  rw [loopBody_discovered env g s w hc hd]
  cases (env.Connect s 20 w).1 <;> simp [hubEvents, Event.hub?]

theorem hubEvents_self_scan_match (env : Env W) (g : Globals) (s : SBrickHubClient) (w : W)
    (hc : env.IsConnected s w = false) (hd : env.IsDiscovered s w = false)
    (hm : env.IsDiscovered s
      (env.StartDiscovery s g.scanner g.BLE_SCAN_DURATION_IN_SECONDS w) = true) :
    hubEvents s (loopBody env g s w).2 =
      [Event.IsConnected s, Event.IsDiscovered s,
        Event.StartDiscovery s g.scanner g.BLE_SCAN_DURATION_IN_SECONDS,
        Event.IsDiscovered s, Event.Connect s 20] := by
  rw [loopBody_scan_match env g s w hc hd hm]
  cases (env.Connect s 20
    (env.StartDiscovery s g.scanner g.BLE_SCAN_DURATION_IN_SECONDS w)).1 <;>
    simp [hubEvents, Event.hub?]

theorem hubEvents_self_scan_timeout (env : Env W) (g : Globals) (s : SBrickHubClient) (w : W)
    (hc : env.IsConnected s w = false) (hd : env.IsDiscovered s w = false)
    (hm : env.IsDiscovered s
      (env.StartDiscovery s g.scanner g.BLE_SCAN_DURATION_IN_SECONDS w) = false) :
    hubEvents s (loopBody env g s w).2 =
      [Event.IsConnected s, Event.IsDiscovered s,
        Event.StartDiscovery s g.scanner g.BLE_SCAN_DURATION_IN_SECONDS,
        Event.IsDiscovered s] := by
  rw [loopBody_scan_timeout env g s w hc hd hm]; simp [hubEvents, Event.hub?]

theorem loop_eq (env : Env W) (g : Globals) (w : W) :
    loop env g w =
      (env.delay (loopDelay env g)
          (publishStep env g (loopBody env g hubB (loopBody env g hubA w).1).1).1,
        (loopBody env g hubA w).2 ++ (loopBody env g hubB (loopBody env g hubA w).1).2
          ++ (publishStep env g (loopBody env g hubB (loopBody env g hubA w).1).1).2
          ++ [Event.delay (loopDelay env g)]) := by
  simp [loop, loopFrom_zero]

theorem isConnected_calls_loop (env : Env W) (g : Globals) (w : W) :
    (loop env g w).2.filter Event.isIsConnected
      = [Event.IsConnected hubA, Event.IsConnected hubB] := by
  rw [loop_trace]
  simp [isConnected_calls_loopBody, isConnected_calls_publishStep, Event.isIsConnected]

theorem getLast_loop (env : Env W) (g : Globals) (w : W) :
    (loop env g w).2.getLast? = some (Event.delay (loopDelay env g)) := by
  rw [loop_trace]; simp

theorem connect_mem_loopBody (env : Env W) (g : Globals) (s h : SBrickHubClient) (w : W)
    (wd : Int) :
    Event.Connect h wd ∈ (loopBody env g s w).2 ↔
      h = s ∧ env.IsConnected s w = false
        ∧ env.IsDiscovered s (discoverStep env g s w).1 = true ∧ wd = 20 := by
  simp only [loopBody, discoverStep, connectStep, WATCHDOG_TIMEOUT_IN_TENS_OF_SECONDS]
  split_ifs <;> simp_all

theorem startDiscovery_calls_loopBody (env : Env W) (g : Globals) (s : SBrickHubClient)
    (w : W) :
    (loopBody env g s w).2.filter Event.isStartDiscovery =
      if env.IsConnected s w = false ∧ env.IsDiscovered s w = false then
        [Event.StartDiscovery s g.scanner g.BLE_SCAN_DURATION_IN_SECONDS]
      else [] := by
  simp only [loopBody, discoverStep, connectStep]
  split_ifs <;> simp_all [Event.isStartDiscovery]

theorem startDiscovery_calls_publishStep (env : Env W) (g : Globals) (w : W) :
    (publishStep env g w).2.filter Event.isStartDiscovery = [] := by
  simp only [publishStep]
  split_ifs <;> simp [Event.isStartDiscovery]

theorem startDiscovery_calls_loop (env : Env W) (g : Globals) (w : W) :
    (loop env g w).2.filter Event.isStartDiscovery =
      (loopBody env g hubA (worldAtTurn env g 0 w)).2.filter Event.isStartDiscovery
        ++ (loopBody env g hubB (worldAtTurn env g 1 w)).2.filter Event.isStartDiscovery := by
  rw [loop_trace]
  simp [startDiscovery_calls_publishStep, Event.isStartDiscovery, worldAtTurn_zero,
    worldAtTurn_one]

theorem not_mem_of_hubEvents (h : SBrickHubClient) (tr : List Event) (e : Event)
    (hh : e.hub? = some h) (hn : e ∉ hubEvents h tr) : e ∉ tr :=
  fun hmem => hn ((mem_hubEvents h tr e).2 ⟨hmem, hh⟩)

theorem connect_not_mem_publishStep (env : Env W) (g : Globals) (w : W)
    (h : SBrickHubClient) (wd : Int) :
    Event.Connect h wd ∉ (publishStep env g w).2 := by
  simp only [publishStep]
  split_ifs <;> simp

theorem connect_mem_loop (env : Env W) (g : Globals) (w : W) (h : SBrickHubClient)
    (wd : Int) :
    Event.Connect h wd ∈ (loop env g w).2 ↔
      (h = hubA ∧ env.IsConnected hubA (worldAtTurn env g 0 w) = false
          ∧ env.IsDiscovered hubA (discoverStep env g hubA (worldAtTurn env g 0 w)).1 = true
          ∧ wd = 20)
      ∨ (h = hubB ∧ env.IsConnected hubB (worldAtTurn env g 1 w) = false
          ∧ env.IsDiscovered hubB (discoverStep env g hubB (worldAtTurn env g 1 w)).1 = true
          ∧ wd = 20) := by
  rw [loop_trace]
  simp [connect_mem_loopBody, connect_not_mem_publishStep, worldAtTurn_zero, worldAtTurn_one]

theorem startDiscovery_mem_loopBody (env : Env W) (g : Globals) (s h : SBrickHubClient)
    (w : W) (sc : NimBLEScan) (dur : Nat) :
    Event.StartDiscovery h sc dur ∈ (loopBody env g s w).2 ↔
      h = s ∧ env.IsConnected s w = false ∧ env.IsDiscovered s w = false
        ∧ sc = g.scanner ∧ dur = g.BLE_SCAN_DURATION_IN_SECONDS := by
  simp only [loopBody, discoverStep, connectStep]
  split_ifs <;> simp_all

theorem startDiscovery_not_mem_publishStep (env : Env W) (g : Globals) (w : W)
    (h : SBrickHubClient) (sc : NimBLEScan) (dur : Nat) :
    Event.StartDiscovery h sc dur ∉ (publishStep env g w).2 := by
  simp only [publishStep]
  split_ifs <;> simp

theorem startDiscovery_mem_loop (env : Env W) (g : Globals) (w : W) (h : SBrickHubClient)
    (sc : NimBLEScan) (dur : Nat) (hmem : Event.StartDiscovery h sc dur ∈ (loop env g w).2) :
    sc = g.scanner ∧ dur = g.BLE_SCAN_DURATION_IN_SECONDS := by
  rw [loop_trace] at hmem
  simp [startDiscovery_mem_loopBody, startDiscovery_not_mem_publishStep] at hmem
  rcases hmem with ⟨_, _, _, h1, h2⟩ | ⟨_, _, _, h1, h2⟩ <;> exact ⟨h1, h2⟩

theorem scan_calls_of_undiscovered (env : Env W) (g : Globals) (s : SBrickHubClient) (w : W)
    (hc : env.IsConnected s w = false) (hd : env.IsDiscovered s w = false) :
    (hubEvents s (loopBody env g s w).2).filter Event.isStartDiscovery
      = [Event.StartDiscovery s g.scanner g.BLE_SCAN_DURATION_IN_SECONDS] := by
  cases hm : env.IsDiscovered s
      (env.StartDiscovery s g.scanner g.BLE_SCAN_DURATION_IN_SECONDS w)
  · rw [hubEvents_self_scan_timeout env g s w hc hd hm]; simp [Event.isStartDiscovery]
  · rw [hubEvents_self_scan_match env g s w hc hd hm]; simp [Event.isStartDiscovery]

theorem mySBricks_get_zero (h : 0 < mySBricks.size) :
    mySBricks[(⟨0, h⟩ : Fin mySBricks.size)] = hubA := rfl

theorem mySBricks_get_one (h : 1 < mySBricks.size) :
    mySBricks[(⟨1, h⟩ : Fin mySBricks.size)] = hubB := rfl

/-! ## The publishing step, the delay and the queue -/

theorem queueMessage_calls_loopBody (env : Env W) (g : Globals) (s : SBrickHubClient) (w : W) :
    (loopBody env g s w).2.filter Event.isQueueMessage = [] := by
  simp only [loopBody, discoverStep, connectStep]
  split_ifs <;> simp [Event.isQueueMessage]

theorem delay_calls_loopBody (env : Env W) (g : Globals) (s : SBrickHubClient) (w : W) :
    (loopBody env g s w).2.filter Event.isDelay = [] := by
  simp only [loopBody, discoverStep, connectStep]
  split_ifs <;> simp [Event.isDelay]

theorem delay_calls_publishStep (env : Env W) (g : Globals) (w : W) :
    (publishStep env g w).2.filter Event.isDelay = [] := by
  simp only [publishStep]
  split_ifs <;> simp [Event.isDelay]

theorem queueMessage_calls_publishStep (env : Env W) (g : Globals) (w : W) :
    (publishStep env g w).2.filter Event.isQueueMessage =
      if g.ENABLE_MQTT then
        [Event.QueueMessage ("Hello world @ " ++ toString (env.millis w))]
      else [] := by
  simp only [publishStep]
  split_ifs <;> simp_all [Event.isQueueMessage]

theorem loopDelay_configured (env : Env W) (sc : NimBLEScan) (mqtt : Bool) :
    loopDelay env (configured sc mqtt) = 5000 / env.portTICK_PERIOD_MS := by
  have h : 5000 / env.portTICK_PERIOD_MS ≤ 5000 := Nat.div_le_self _ _
  simp only [loopDelay, configured, initialGlobals, UINT32_MOD]
  norm_num
  omega

theorem five_thousand_div_eq (p : Nat) : 5000 / p = 5000 ↔ p = 1 := by
  constructor
  · intro h
    rcases Nat.lt_or_ge p 2 with hp | hp
    · interval_cases p
      · simp at h
      · rfl
    · have h2 : 5000 / p ≤ 5000 / 2 := Nat.div_le_div_left hp (by decide)
      omega
  · rintro rfl
    rfl

namespace OutboundQueue

theorem step_capacity (q : OutboundQueue) (op : Op) : (step q op).capacity = q.capacity := by
  cases op with
  | enq m =>
    simp only [step, enqueue]
    split_ifs <;> rfl
  | deq =>
    simp only [step, dequeue]
    cases q.messages <;> rfl

theorem step_length_le (q : OutboundQueue) (op : Op)
    (h : q.messages.length ≤ q.capacity) : (step q op).messages.length ≤ q.capacity := by
  cases op with
  | enq m =>
    simp only [step, enqueue]
    split_ifs with hlt
    · simp; omega
    · exact h
  | deq =>
    simp only [step, dequeue]
    cases hq : q.messages with
    | nil => simpa using h
    | cons a rest =>
      rw [hq] at h
      simp at h ⊢
      omega

theorem run_invariant (ops : List Op) (q : OutboundQueue)
    (h : q.messages.length ≤ q.capacity) :
    (run q ops).capacity = q.capacity ∧ (run q ops).messages.length ≤ q.capacity := by
  induction ops generalizing q with
  | nil => exact ⟨rfl, h⟩
  | cons op rest ih =>
    have hs := step_length_le q op h
    have hcap := step_capacity q op
    have := ih (step q op) (by rw [hcap]; exact hs)
    simp only [run, List.foldl_cons] at this ⊢
    rw [hcap] at this
    exact this

theorem enqueue_full (q : OutboundQueue) (m : String)
    (h : q.messages.length = q.capacity) : q.enqueue m = (false, q) := by
  simp [enqueue, h]

end OutboundQueue

/-! ## The world a block leaves -/

theorem worldAtTurn_succ (env : Env W) (g : Globals) (w : W) (i : Fin mySBricks.size) :
    worldAtTurn env g (i.val + 1) w
      = (loopBody env g mySBricks[i] (worldAtTurn env g i w)).1 := by
  revert i
  apply forall_turn
  · rfl
  · rfl

theorem loopFrom_world (env : Env W) (g : Globals) (w : W) :
    (loopFrom env g 0 w).1 = worldAtTurn env g mySBricks.size w := by
  rw [loopFrom_zero]
  rfl

theorem loopBody_world_not_connected (env : Env W) (g : Globals) (s : SBrickHubClient) (w : W)
    (hc : env.IsConnected s w = false) :
    (loopBody env g s w).1 = (connectStep env s (discoverStep env g s w).1).1 := by
  simp [loopBody, hc]

theorem discoverStep_undiscovered (env : Env W) (g : Globals) (s : SBrickHubClient) (w : W)
    (hd : env.IsDiscovered s w = false) :
    discoverStep env g s w
      = (env.StartDiscovery s g.scanner g.BLE_SCAN_DURATION_IN_SECONDS w,
          [Event.IsDiscovered s,
            Event.StartDiscovery s g.scanner g.BLE_SCAN_DURATION_IN_SECONDS]) := by
  simp [discoverStep, hd]

/-! ## Claims -/

/-- C1: one call of `loop` processes each configured hub exactly once and in configuration
order, hub "YC66405" first and hub "HE10233" second.  The hub calls of the iteration are
the hub calls of the block of the first hub followed by those of the block of the second
hub, run in the world the first block leaves; every call of a block is made on the hub of
that block; and the `IsConnected` calls of the whole iteration are exactly one for the
first hub followed by one for the second.  This holds for every environment, hence
whatever the calls on the earlier hub did. -/
theorem C1_sweep_in_configuration_order (env : Env W) (g : Globals) (w : W) :
    mySBricks.toList = [⟨"YC66405", "00:07:80:d0:47:43"⟩, ⟨"HE10233", "00:07:80:d0:3a:f2"⟩]
    ∧ mySBricks.toList = [hubA, hubB]
    ∧ hubOps (loop env g w).2 =
        hubOps (loopBody env g hubA (worldAtTurn env g 0 w)).2
          ++ hubOps (loopBody env g hubB (worldAtTurn env g 1 w)).2
    ∧ (∀ e ∈ hubOps (loopBody env g hubA (worldAtTurn env g 0 w)).2, e.hub? = some hubA)
    ∧ (∀ e ∈ hubOps (loopBody env g hubB (worldAtTurn env g 1 w)).2, e.hub? = some hubB)
    ∧ (loop env g w).2.filter Event.isIsConnected
        = [Event.IsConnected hubA, Event.IsConnected hubB]
    ∧ (∀ i : Fin mySBricks.size,
        (hubEvents mySBricks[i] (loop env g w).2).filter Event.isIsConnected
          = [Event.IsConnected mySBricks[i]]) := by
  have h0 : mySBricks.getD 0 default = hubA := rfl
  refine ⟨rfl, rfl, ?_, ?_, ?_, ?_, ?_⟩
  · simp [hubOps_loop, worldAtTurn, h0]
  · exact fun e he => hub_of_loopBody_event env g hubA _ e he
  · exact fun e he => hub_of_loopBody_event env g hubB _ e he
  · rw [loop_trace]
    simp [isConnected_calls_loopBody, isConnected_calls_publishStep, Event.isIsConnected]
  · intro i
    rw [hubEvents_loop_turn]
    simp only [hubEvents, List.filter_filter]
    simp only [loopBody, discoverStep, connectStep]
    split_ifs <;> simp [Event.isIsConnected, Event.hub?]

/-- C2: in every iteration and for every configured hub, a drive command is issued to the
hub if and only if the hub reports `IsConnected()` at its turn; the command is exactly
(-75, -75, 75, 75), issued once; every drive value of the iteration lies in -255..255; and
the calls made on a hub that is connected at its turn are `IsConnected` and `Drive` only,
so it receives no discovery request and no connect attempt.  The command is carried out:
the block of a hub connected at its turn is the pair of the world `Drive(-75, -75, 75, 75)`
returns and these two calls, and that world is the one the next turn starts in; the block of
a hub not connected at its turn leaves the world of its discovery and connect steps, with no
`Drive` in it; and the sweep and the iteration continue from the world of the last turn. -/
theorem C2_drive_iff_connected (env : Env W) (g : Globals) (w : W)
    (i : Fin mySBricks.size) :
    (∀ a b c d : Int, Event.Drive mySBricks[i] a b c d ∈ (loop env g w).2 ↔
        (env.IsConnected mySBricks[i] (worldAtTurn env g i w) = true
          ∧ a = -75 ∧ b = -75 ∧ c = 75 ∧ d = 75))
    ∧ (hubEvents mySBricks[i] (loop env g w).2).filter Event.isDrive
        = (if env.IsConnected mySBricks[i] (worldAtTurn env g i w)
            then [Event.Drive mySBricks[i] (-75) (-75) 75 75] else [])
    ∧ (∀ (s : SBrickHubClient) (a b c d : Int), Event.Drive s a b c d ∈ (loop env g w).2 →
        (-255 ≤ a ∧ a ≤ 255) ∧ (-255 ≤ b ∧ b ≤ 255) ∧ (-255 ≤ c ∧ c ≤ 255)
          ∧ (-255 ≤ d ∧ d ≤ 255))
    ∧ (env.IsConnected mySBricks[i] (worldAtTurn env g i w) = true →
        hubEvents mySBricks[i] (loop env g w).2
            = [Event.IsConnected mySBricks[i], Event.Drive mySBricks[i] (-75) (-75) 75 75]
          ∧ (∀ sc dur, Event.StartDiscovery mySBricks[i] sc dur ∉ (loop env g w).2)
          ∧ (∀ wd, Event.Connect mySBricks[i] wd ∉ (loop env g w).2))
    ∧ (env.IsConnected mySBricks[i] (worldAtTurn env g i w) = true →
        loopBody env g mySBricks[i] (worldAtTurn env g i w)
            = (env.Drive mySBricks[i] (-75) (-75) 75 75 (worldAtTurn env g i w),
                [Event.IsConnected mySBricks[i], Event.Drive mySBricks[i] (-75) (-75) 75 75])
          ∧ worldAtTurn env g (i.val + 1) w
              = env.Drive mySBricks[i] (-75) (-75) 75 75 (worldAtTurn env g i w))
    ∧ (env.IsConnected mySBricks[i] (worldAtTurn env g i w) = false →
        worldAtTurn env g (i.val + 1) w
          = (connectStep env mySBricks[i]
              (discoverStep env g mySBricks[i] (worldAtTurn env g i w)).1).1)
    ∧ (loopFrom env g 0 w).1 = worldAtTurn env g mySBricks.size w
    ∧ (loop env g w).1
        = env.delay (loopDelay env g)
            (publishStep env g (worldAtTurn env g mySBricks.size w)).1 := by
  refine ⟨?_, ?_, ?_, ?_, ?_, ?_, loopFrom_world env g w, ?_⟩
  rotate_left 4
  · intro hc
    have hb := loopBody_connected env g _ _ hc
    refine ⟨hb, ?_⟩
    rw [worldAtTurn_succ, hb]
  · intro hc
    rw [worldAtTurn_succ]
    exact loopBody_world_not_connected env g _ _ hc
  · rw [← loopFrom_world]
    rfl
  · revert i
    apply forall_turn
    · intro a b c d
      have e0 : mySBricks[(⟨0, by decide⟩ : Fin mySBricks.size)] = hubA := rfl
      simp only [e0, drive_mem_loop]
      simp [hubA_ne_hubB]
    · intro a b c d
      have e1 : mySBricks[(⟨1, by decide⟩ : Fin mySBricks.size)] = hubB := rfl
      simp only [e1, drive_mem_loop]
      simp [hubA_ne_hubB.symm]
  · rw [hubEvents_loop_turn]
    simp only [loopBody, discoverStep, connectStep, hubEvents]
    split_ifs <;> simp_all [Event.isDrive, Event.hub?]
  · intro s a b c d hmem
    rw [drive_mem_loop] at hmem
    rcases hmem with ⟨_, _, rfl, rfl, rfl, rfl⟩ | ⟨_, _, rfl, rfl, rfl, rfl⟩ <;> decide
  · intro hc
    have hev := hubEvents_loop_turn env g w i
    rw [hubEvents_self_connected env g _ _ hc] at hev
    refine ⟨hev, ?_, ?_⟩
    · intro sc dur hmem
      have : Event.StartDiscovery mySBricks[i] sc dur ∈ hubEvents mySBricks[i] (loop env g w).2 :=
        (mem_hubEvents _ _ _).2 ⟨hmem, rfl⟩
      rw [hev] at this
      simp at this
    · intro wd hmem
      have : Event.Connect mySBricks[i] wd ∈ hubEvents mySBricks[i] (loop env g w).2 :=
        (mem_hubEvents _ _ _).2 ⟨hmem, rfl⟩
      rw [hev] at this
      simp at this

/-- C3 (as stated, refuted): a hub that is discovered but not connected at its turn and
whose connection attempt succeeds is connected after the iteration, yet the iteration made
no `Drive` call at all; the calls on the hub were `IsConnected`, `IsDiscovered` twice and
`Connect(20)`. -/
theorem C3_connected_after_without_drive :
    (Sim.env 1).IsConnected hubA (loop (Sim.env 1) (configured 1 false) Sim.connectSucceeds).1
        = true
    ∧ (loop (Sim.env 1) (configured 1 false) Sim.connectSucceeds).2.filter Event.isDrive = []
    ∧ hubEvents hubA (loop (Sim.env 1) (configured 1 false) Sim.connectSucceeds).2
        = [Event.IsConnected hubA, Event.IsDiscovered hubA, Event.IsDiscovered hubA,
            Event.Connect hubA 20] := by
  rw [loop_eq]
  refine ⟨by rfl, by decide, by decide⟩

/-- C3 (amended): for every hub and every number `n` of completed iterations, if the hub is
connected at its turn in the next iteration, that iteration issues the drive write
(-75, -75, 75, 75) to it, and the calls it makes on the hub are `IsConnected` and `Drive`;
a hub that is not connected at its turn is issued no drive write in that iteration,
whatever its state afterwards.  The block of the connected hub leaves the world that
`Drive(-75, -75, 75, 75)` returns. -/
theorem C3_connected_at_turn_is_driven (env : Env W) (g : Globals) (w : W) (n : Nat)
    (i : Fin mySBricks.size)
    (hc : env.IsConnected mySBricks[i] (worldAtTurn env g i (worldAfter env g n w)) = true) :
    Event.Drive mySBricks[i] (-75) (-75) 75 75 ∈ tickTrace env g n w
    ∧ hubEvents mySBricks[i] (tickTrace env g n w)
        = [Event.IsConnected mySBricks[i], Event.Drive mySBricks[i] (-75) (-75) 75 75]
    ∧ (∀ (m : Nat) (j : Fin mySBricks.size),
        env.IsConnected mySBricks[j] (worldAtTurn env g j (worldAfter env g m w)) = false →
        (hubEvents mySBricks[j] (tickTrace env g m w)).filter Event.isDrive = [])
    ∧ loopBody env g mySBricks[i] (worldAtTurn env g i (worldAfter env g n w))
        = (env.Drive mySBricks[i] (-75) (-75) 75 75
              (worldAtTurn env g i (worldAfter env g n w)),
            [Event.IsConnected mySBricks[i], Event.Drive mySBricks[i] (-75) (-75) 75 75]) := by
  have hev := hubEvents_loop_turn env g (worldAfter env g n w) i
  rw [hubEvents_self_connected env g _ _ hc] at hev
  refine ⟨?_, hev, ?_, loopBody_connected env g _ _ hc⟩
  · have : Event.Drive mySBricks[i] (-75) (-75) 75 75
        ∈ hubEvents mySBricks[i] (loop env g (worldAfter env g n w)).2 := by
      rw [hev]; simp
    exact ((mem_hubEvents _ _ _).1 this).1
  · intro m j hj
    simp only [tickTrace]
    rw [hubEvents_loop_turn]
    simp only [loopBody, discoverStep, connectStep, hubEvents]
    split_ifs <;> simp_all [Event.isDrive, Event.hub?]

/-- C3 (amended), at a concrete input: the first hub, connected by the first iteration, is
connected at its turn in the second iteration and is driven by it. -/
theorem C3_connected_at_turn_is_driven_witness :
    (Sim.env 1).IsConnected hubA
        (worldAtTurn (Sim.env 1) (configured 1 false) 0
          (worldAfter (Sim.env 1) (configured 1 false) 1 Sim.connectSucceeds)) = true
    ∧ Event.Drive hubA (-75) (-75) 75 75
        ∈ tickTrace (Sim.env 1) (configured 1 false) 1 Sim.connectSucceeds :=
  have h : (Sim.env 1).IsConnected hubA
        (worldAtTurn (Sim.env 1) (configured 1 false) 0
          (worldAfter (Sim.env 1) (configured 1 false) 1 Sim.connectSucceeds)) = true := by
    simp only [worldAfter, worldAtTurn, loop_eq]; rfl
  ⟨h, (C3_connected_at_turn_is_driven (Sim.env 1) (configured 1 false) Sim.connectSucceeds 1
    ⟨0, by decide⟩ h).1⟩

/-- C4: for every hub that is not connected but already discovered at its turn, the calls
the iteration makes on it are `IsConnected`, `IsDiscovered` twice and one `Connect` with the
watchdog value 20 (non-zero, within the range of a signed byte), and no scan request.  The
block changes the world only through that `Connect`; when it fails the block prints one
line and nothing more, every configured hub is still examined, the iteration ends with its
`delay`, and an iteration that again finds the hub discovered and not connected makes the
same calls again. -/
theorem C4_discovered_hub_gets_one_connect (env : Env W) (g : Globals) (w : W)
    (i : Fin mySBricks.size)
    (hc : env.IsConnected mySBricks[i] (worldAtTurn env g i w) = false)
    (hd : env.IsDiscovered mySBricks[i] (worldAtTurn env g i w) = true) :
    hubEvents mySBricks[i] (loop env g w).2
        = [Event.IsConnected mySBricks[i], Event.IsDiscovered mySBricks[i],
            Event.IsDiscovered mySBricks[i],
            Event.Connect mySBricks[i] WATCHDOG_TIMEOUT_IN_TENS_OF_SECONDS]
    ∧ WATCHDOG_TIMEOUT_IN_TENS_OF_SECONDS = 20
    ∧ WATCHDOG_TIMEOUT_IN_TENS_OF_SECONDS ≠ 0
    ∧ (-128 ≤ WATCHDOG_TIMEOUT_IN_TENS_OF_SECONDS ∧ WATCHDOG_TIMEOUT_IN_TENS_OF_SECONDS ≤ 127)
    ∧ (∀ sc dur, Event.StartDiscovery mySBricks[i] sc dur ∉ (loop env g w).2)
    ∧ (loopBody env g mySBricks[i] (worldAtTurn env g i w)).1
        = (env.Connect mySBricks[i] 20 (worldAtTurn env g i w)).2
    ∧ ((env.Connect mySBricks[i] 20 (worldAtTurn env g i w)).1 = false →
        (loopBody env g mySBricks[i] (worldAtTurn env g i w)).2
          = [Event.IsConnected mySBricks[i], Event.IsDiscovered mySBricks[i],
              Event.IsDiscovered mySBricks[i], Event.Connect mySBricks[i] 20,
              Event.println (logLine env (env.Connect mySBricks[i] 20 (worldAtTurn env g i w)).2
                "Loop: Connect failed")])
    ∧ (loop env g w).2.filter Event.isIsConnected
        = [Event.IsConnected hubA, Event.IsConnected hubB]
    ∧ (loop env g w).2.getLast? = some (Event.delay (loopDelay env g))
    ∧ (env.IsConnected mySBricks[i] (worldAtTurn env g i (loop env g w).1) = false →
        env.IsDiscovered mySBricks[i] (worldAtTurn env g i (loop env g w).1) = true →
        hubEvents mySBricks[i] (loop env g (loop env g w).1).2
          = [Event.IsConnected mySBricks[i], Event.IsDiscovered mySBricks[i],
              Event.IsDiscovered mySBricks[i],
              Event.Connect mySBricks[i] WATCHDOG_TIMEOUT_IN_TENS_OF_SECONDS]) := by
  have hev := hubEvents_loop_turn env g w i
  rw [hubEvents_self_discovered env g _ _ hc hd] at hev
  have hbody := loopBody_discovered env g _ _ hc hd
  refine ⟨hev, rfl, by decide, by decide, ?_, ?_, ?_, isConnected_calls_loop env g w,
    getLast_loop env g w, ?_⟩
  · intro sc dur
    refine not_mem_of_hubEvents mySBricks[i] _ (Event.StartDiscovery mySBricks[i] sc dur) rfl ?_
    rw [hev]; simp
  · rw [hbody]
  · intro hfail
    rw [hbody, hfail]; simp
  · intro hc2 hd2
    rw [hubEvents_loop_turn, hubEvents_self_discovered env g _ _ hc2 hd2]
    rfl

/-- C4, at a concrete input: the first hub is discovered, not connected, and its connection
attempts fail; the first iteration makes one `Connect(20)` on it, prints the failure, leaves
it discovered and not connected, and the second iteration makes the same calls. -/
theorem C4_discovered_hub_gets_one_connect_witness :
    (Sim.env 1).IsConnected hubA Sim.connectFails = false
    ∧ (Sim.env 1).IsDiscovered hubA Sim.connectFails = true
    ∧ ((Sim.env 1).Connect hubA 20 Sim.connectFails).1 = false
    ∧ hubEvents hubA (loop (Sim.env 1) (configured 1 false) Sim.connectFails).2
        = [Event.IsConnected hubA, Event.IsDiscovered hubA, Event.IsDiscovered hubA,
            Event.Connect hubA 20]
    ∧ hubEvents hubA (loop (Sim.env 1) (configured 1 false)
          (loop (Sim.env 1) (configured 1 false) Sim.connectFails).1).2
        = [Event.IsConnected hubA, Event.IsDiscovered hubA, Event.IsDiscovered hubA,
            Event.Connect hubA 20] :=
  have hc : (Sim.env 1).IsConnected hubA Sim.connectFails = false := rfl
  have hd : (Sim.env 1).IsDiscovered hubA Sim.connectFails = true := rfl
  have hc2 : (Sim.env 1).IsConnected hubA
      (loop (Sim.env 1) (configured 1 false) Sim.connectFails).1 = false := by
    rw [loop_eq]; rfl
  have hd2 : (Sim.env 1).IsDiscovered hubA
      (loop (Sim.env 1) (configured 1 false) Sim.connectFails).1 = true := by
    rw [loop_eq]; rfl
  have t := C4_discovered_hub_gets_one_connect (Sim.env 1) (configured 1 false)
    Sim.connectFails ⟨0, by decide⟩ hc hd
  ⟨hc, hd, rfl, t.1, t.2.2.2.2.2.2.2.2.2 hc2 hd2⟩

/-- C5: for every hub that is neither connected nor discovered at its turn, the iteration
makes exactly one `StartDiscovery` call on it, with the shared scanner and the scan duration
1; every scan request of the iteration carries that scanner and that duration.  If the hub is
still not discovered when `StartDiscovery` returns, the calls on it are `IsConnected`,
`IsDiscovered`, `StartDiscovery`, `IsDiscovered` and no `Connect`; in general a `Connect`
call is made on a hub only when `IsDiscovered` held just before it.  An iteration that again
finds the hub neither connected nor discovered repeats the scan request.  The request is
carried out: the world the hub is re-tested in is the one `StartDiscovery` returned, and it
is the world the block leaves when the hub is still not discovered. -/
theorem C5_undiscovered_hub_gets_one_scan (env : Env W) (sc : NimBLEScan) (mqtt : Bool)
    (w : W) (i : Fin mySBricks.size)
    (hc : env.IsConnected mySBricks[i] (worldAtTurn env (configured sc mqtt) i w) = false)
    (hd : env.IsDiscovered mySBricks[i] (worldAtTurn env (configured sc mqtt) i w) = false) :
    (hubEvents mySBricks[i] (loop env (configured sc mqtt) w).2).filter Event.isStartDiscovery
        = [Event.StartDiscovery mySBricks[i] sc 1]
    ∧ (∀ h s dur, Event.StartDiscovery h s dur ∈ (loop env (configured sc mqtt) w).2 →
        s = sc ∧ dur = 1)
    ∧ (env.IsDiscovered mySBricks[i]
          (env.StartDiscovery mySBricks[i] sc 1 (worldAtTurn env (configured sc mqtt) i w))
          = false →
        hubEvents mySBricks[i] (loop env (configured sc mqtt) w).2
            = [Event.IsConnected mySBricks[i], Event.IsDiscovered mySBricks[i],
                Event.StartDiscovery mySBricks[i] sc 1, Event.IsDiscovered mySBricks[i]]
          ∧ (∀ wd, Event.Connect mySBricks[i] wd ∉ (loop env (configured sc mqtt) w).2))
    ∧ (∀ (j : Fin mySBricks.size) (wd : Int),
        Event.Connect mySBricks[j] wd ∈ (loop env (configured sc mqtt) w).2 →
        env.IsDiscovered mySBricks[j]
          (discoverStep env (configured sc mqtt) mySBricks[j]
            (worldAtTurn env (configured sc mqtt) j w)).1 = true)
    ∧ (env.IsConnected mySBricks[i]
          (worldAtTurn env (configured sc mqtt) i (loop env (configured sc mqtt) w).1) = false →
        env.IsDiscovered mySBricks[i]
          (worldAtTurn env (configured sc mqtt) i (loop env (configured sc mqtt) w).1) = false →
        (hubEvents mySBricks[i]
            (loop env (configured sc mqtt) (loop env (configured sc mqtt) w).1).2).filter
            Event.isStartDiscovery
          = [Event.StartDiscovery mySBricks[i] sc 1])
    ∧ discoverStep env (configured sc mqtt) mySBricks[i]
          (worldAtTurn env (configured sc mqtt) i w)
        = (env.StartDiscovery mySBricks[i] sc 1 (worldAtTurn env (configured sc mqtt) i w),
            [Event.IsDiscovered mySBricks[i], Event.StartDiscovery mySBricks[i] sc 1])
    ∧ (env.IsDiscovered mySBricks[i]
          (env.StartDiscovery mySBricks[i] sc 1 (worldAtTurn env (configured sc mqtt) i w))
          = false →
        loopBody env (configured sc mqtt) mySBricks[i]
            (worldAtTurn env (configured sc mqtt) i w)
          = (env.StartDiscovery mySBricks[i] sc 1 (worldAtTurn env (configured sc mqtt) i w),
              [Event.IsConnected mySBricks[i], Event.IsDiscovered mySBricks[i],
                Event.StartDiscovery mySBricks[i] sc 1, Event.IsDiscovered mySBricks[i]])) := by
  refine ⟨?_, ?_, ?_, ?_, ?_, ?_, ?_⟩
  rotate_left 5
  · rw [discoverStep_undiscovered env _ _ _ hd]
    rfl
  · intro hm
    rw [loopBody_scan_timeout env (configured sc mqtt) _ _ hc hd hm]
    rfl
  · rw [hubEvents_loop_turn]
    exact scan_calls_of_undiscovered env (configured sc mqtt) _ _ hc hd
  · intro h s dur hmem
    exact startDiscovery_mem_loop env (configured sc mqtt) w h s dur hmem
  · intro hm
    have hev := hubEvents_loop_turn env (configured sc mqtt) w i
    rw [hubEvents_self_scan_timeout env (configured sc mqtt) _ _ hc hd hm] at hev
    refine ⟨hev, ?_⟩
    intro wd
    refine not_mem_of_hubEvents mySBricks[i] _ (Event.Connect mySBricks[i] wd) rfl ?_
    rw [hev]; simp
  · apply forall_turn
    · intro wd hmem
      rw [mySBricks_get_zero] at hmem ⊢
      rw [connect_mem_loop] at hmem
      rcases hmem with ⟨_, _, h3, _⟩ | ⟨h1, _⟩
      · exact h3
      · exact absurd h1 hubA_ne_hubB
    · intro wd hmem
      rw [mySBricks_get_one] at hmem ⊢
      rw [connect_mem_loop] at hmem
      rcases hmem with ⟨h1, _⟩ | ⟨_, _, h3, _⟩
      · exact absurd h1 hubA_ne_hubB.symm
      · exact h3
  · intro hc2 hd2
    rw [hubEvents_loop_turn]
    exact scan_calls_of_undiscovered env (configured sc mqtt) _ _ hc2 hd2

/-- C5, at a concrete input: the first hub needs discovery and its scans time out; the first
iteration makes one scan request and no connect attempt on it, and so does the second. -/
theorem C5_undiscovered_hub_gets_one_scan_witness :
    (Sim.env 1).IsConnected hubA Sim.scanTimesOut = false
    ∧ (Sim.env 1).IsDiscovered hubA Sim.scanTimesOut = false
    ∧ (hubEvents hubA (loop (Sim.env 1) (configured 1 false) Sim.scanTimesOut).2).filter
          Event.isStartDiscovery
        = [Event.StartDiscovery hubA 1 1]
    ∧ hubEvents hubA (loop (Sim.env 1) (configured 1 false) Sim.scanTimesOut).2
        = [Event.IsConnected hubA, Event.IsDiscovered hubA,
            Event.StartDiscovery hubA 1 1, Event.IsDiscovered hubA]
    ∧ (hubEvents hubA (loop (Sim.env 1) (configured 1 false)
          (loop (Sim.env 1) (configured 1 false) Sim.scanTimesOut).1).2).filter
          Event.isStartDiscovery
        = [Event.StartDiscovery hubA 1 1] :=
  have hc : (Sim.env 1).IsConnected hubA Sim.scanTimesOut = false := rfl
  have hd : (Sim.env 1).IsDiscovered hubA Sim.scanTimesOut = false := rfl
  have hm : (Sim.env 1).IsDiscovered hubA
      ((Sim.env 1).StartDiscovery hubA 1 1 Sim.scanTimesOut) = false := rfl
  have hc2 : (Sim.env 1).IsConnected hubA
      (loop (Sim.env 1) (configured 1 false) Sim.scanTimesOut).1 = false := by
    rw [loop_eq]; rfl
  have hd2 : (Sim.env 1).IsDiscovered hubA
      (loop (Sim.env 1) (configured 1 false) Sim.scanTimesOut).1 = false := by
    rw [loop_eq]; rfl
  have t := C5_undiscovered_hub_gets_one_scan (Sim.env 1) 1 false Sim.scanTimesOut
    ⟨0, by decide⟩ hc hd
  ⟨hc, hd, t.1, (t.2.2.1 hm).1, t.2.2.2.2.1 hc2 hd2⟩

/-- C6 (as stated, refuted): with both hubs neither connected nor discovered at their turns,
one iteration issues two scan requests with the shared scanner, one for each hub; the request
of the second hub is made in the same iteration, not deferred. -/
theorem C6_two_scan_requests_in_one_iteration :
    (Sim.env 1).IsConnected hubA (worldAtTurn (Sim.env 1) (configured 1 false) 0 Sim.bothIdle)
        = false
    ∧ (Sim.env 1).IsDiscovered hubA (worldAtTurn (Sim.env 1) (configured 1 false) 0 Sim.bothIdle)
        = false
    ∧ (Sim.env 1).IsConnected hubB (worldAtTurn (Sim.env 1) (configured 1 false) 1 Sim.bothIdle)
        = false
    ∧ (Sim.env 1).IsDiscovered hubB (worldAtTurn (Sim.env 1) (configured 1 false) 1 Sim.bothIdle)
        = false
    ∧ (loop (Sim.env 1) (configured 1 false) Sim.bothIdle).2.filter Event.isStartDiscovery
        = [Event.StartDiscovery hubA 1 1, Event.StartDiscovery hubB 1 1]
    ∧ ((loop (Sim.env 1) (configured 1 false) Sim.bothIdle).2.filter
        Event.isStartDiscovery).length = 2 := by
  rw [loop_eq]
  refine ⟨by rfl, by rfl, by rfl, by rfl, by decide, by decide⟩

/-- C6 (amended): given two hubs that are both neither connected nor discovered at their
turns in the same iteration, the iteration issues one scan request per hub, in configuration
order, each with the shared scanner and the scan duration 1; when both scans return without
a match the sweep consists of these calls only and prints nothing.  Each request is carried
out: the world each hub is re-tested in is the one its `StartDiscovery` returned, and after
two scans without a match the sweep leaves the world of the second scan run on the world of
the first. -/
theorem C6_each_undiscovered_hub_is_scanned (env : Env W) (sc : NimBLEScan) (mqtt : Bool)
    (w : W)
    (hcA : env.IsConnected hubA (worldAtTurn env (configured sc mqtt) 0 w) = false)
    (hdA : env.IsDiscovered hubA (worldAtTurn env (configured sc mqtt) 0 w) = false)
    (hcB : env.IsConnected hubB (worldAtTurn env (configured sc mqtt) 1 w) = false)
    (hdB : env.IsDiscovered hubB (worldAtTurn env (configured sc mqtt) 1 w) = false) :
    (loop env (configured sc mqtt) w).2.filter Event.isStartDiscovery
        = [Event.StartDiscovery hubA sc 1, Event.StartDiscovery hubB sc 1]
    ∧ (env.IsDiscovered hubA
          (env.StartDiscovery hubA sc 1 (worldAtTurn env (configured sc mqtt) 0 w)) = false →
        env.IsDiscovered hubB
          (env.StartDiscovery hubB sc 1 (worldAtTurn env (configured sc mqtt) 1 w)) = false →
        (loopFrom env (configured sc mqtt) 0 w).2
          = [Event.IsConnected hubA, Event.IsDiscovered hubA, Event.StartDiscovery hubA sc 1,
              Event.IsDiscovered hubA,
              Event.IsConnected hubB, Event.IsDiscovered hubB, Event.StartDiscovery hubB sc 1,
              Event.IsDiscovered hubB])
    ∧ (discoverStep env (configured sc mqtt) hubA (worldAtTurn env (configured sc mqtt) 0 w)).1
        = env.StartDiscovery hubA sc 1 (worldAtTurn env (configured sc mqtt) 0 w)
    ∧ (discoverStep env (configured sc mqtt) hubB (worldAtTurn env (configured sc mqtt) 1 w)).1
        = env.StartDiscovery hubB sc 1 (worldAtTurn env (configured sc mqtt) 1 w)
    ∧ (env.IsDiscovered hubA
          (env.StartDiscovery hubA sc 1 (worldAtTurn env (configured sc mqtt) 0 w)) = false →
        env.IsDiscovered hubB
          (env.StartDiscovery hubB sc 1 (worldAtTurn env (configured sc mqtt) 1 w)) = false →
        (loopFrom env (configured sc mqtt) 0 w).1
          = env.StartDiscovery hubB sc 1 (env.StartDiscovery hubA sc 1 w)) := by
  refine ⟨?_, ?_, ?_, ?_, ?_⟩
  · rw [startDiscovery_calls_loop, startDiscovery_calls_loopBody, startDiscovery_calls_loopBody]
    rw [if_pos ⟨hcA, hdA⟩, if_pos ⟨hcB, hdB⟩]
    rfl
  · intro hmA hmB
    rw [worldAtTurn_zero] at hcA hdA hmA
    rw [worldAtTurn_one] at hcB hdB hmB
    rw [loopFrom_zero]
    have hA := loopBody_scan_timeout env (configured sc mqtt) hubA w hcA hdA hmA
    have hB := loopBody_scan_timeout env (configured sc mqtt) hubB _ hcB hdB hmB
    rw [hB, hA]
    rfl
  · rw [discoverStep_undiscovered env _ hubA _ hdA]
    rfl
  · rw [discoverStep_undiscovered env _ hubB _ hdB]
    rfl
  · intro hmA hmB
    rw [worldAtTurn_zero] at hcA hdA hmA
    rw [worldAtTurn_one] at hcB hdB hmB
    rw [loopFrom_zero]
    have hA := loopBody_scan_timeout env (configured sc mqtt) hubA w hcA hdA hmA
    have hB := loopBody_scan_timeout env (configured sc mqtt) hubB _ hcB hdB hmB
    rw [hB, hA]
    rfl

/-- C6 (amended), at a concrete input: in the first iteration of the two-hub scenario both
hubs need discovery and both are scanned. -/
theorem C6_each_undiscovered_hub_is_scanned_witness :
    (Sim.env 1).IsConnected hubA Sim.scenario = false
    ∧ (Sim.env 1).IsDiscovered hubA Sim.scenario = false
    ∧ (loop (Sim.env 1) (configured 1 false) Sim.scenario).2.filter Event.isStartDiscovery
        = [Event.StartDiscovery hubA 1 1, Event.StartDiscovery hubB 1 1] :=
  ⟨rfl, rfl,
    (C6_each_undiscovered_hub_is_scanned (Sim.env 1) 1 false Sim.scenario rfl rfl rfl rfl).1⟩

/-- C7 (as stated, refuted): in the two-hub scenario, hub A is still undiscovered after
tick 1 and its scan matches in tick 2; the connect attempt with watchdog value 20 is made in
tick 2 itself, right after the scan request, so at the end of tick 2 hub A is discovered and
connected, and tick 3 makes no connect attempt on A but drives it. -/
theorem C7_connect_in_the_tick_of_discovery :
    (Sim.env 1).IsDiscovered hubA
        (worldAfter (Sim.env 1) (configured 1 false) 1 Sim.scenario) = false
    ∧ hubEvents hubA (tickTrace (Sim.env 1) (configured 1 false) 1 Sim.scenario)
        = [Event.IsConnected hubA, Event.IsDiscovered hubA, Event.StartDiscovery hubA 1 1,
            Event.IsDiscovered hubA, Event.Connect hubA 20]
    ∧ (Sim.env 1).IsDiscovered hubA
        (worldAfter (Sim.env 1) (configured 1 false) 2 Sim.scenario) = true
    ∧ (Sim.env 1).IsConnected hubA
        (worldAfter (Sim.env 1) (configured 1 false) 2 Sim.scenario) = true
    ∧ hubEvents hubA (tickTrace (Sim.env 1) (configured 1 false) 2 Sim.scenario)
        = [Event.IsConnected hubA, Event.Drive hubA (-75) (-75) 75 75]
    ∧ (tickTrace (Sim.env 1) (configured 1 false) 2 Sim.scenario).filter
        (fun e => decide (e = Event.Connect hubA 20)) = [] := by
  simp only [tickTrace, worldAfter, loop_eq]
  refine ⟨by rfl, by rfl, by rfl, by rfl, by rfl, by rfl⟩

/-- C7 (amended): in the two-hub scenario with scan duration 1 and watchdog 20, if hub A is
neither connected nor discovered when tick 2 starts and the scan requested for it in tick 2
returns with A discovered, the connect attempt with watchdog value 20 is made in tick 2
itself, right after the scan request; and when both hubs are connected at their turns in
tick 4, the hub calls of tick 4 are `IsConnected` and the drive write (-75, -75, 75, 75)
for the first hub, then the same for the second.  The calls are carried out: the block of
hub A in tick 2 leaves the world `Connect(20)` returns on the world its scan returned, and
the sweep of tick 4 leaves the world of the two drive writes. -/
theorem C7_scan_match_connects_in_same_tick (env : Env W) (sc : NimBLEScan) (mqtt : Bool)
    (w : W)
    (hc : env.IsConnected hubA (worldAfter env (configured sc mqtt) 1 w) = false)
    (hd : env.IsDiscovered hubA (worldAfter env (configured sc mqtt) 1 w) = false)
    (hm : env.IsDiscovered hubA
      (env.StartDiscovery hubA sc 1 (worldAfter env (configured sc mqtt) 1 w)) = true)
    (hA : env.IsConnected hubA
      (worldAtTurn env (configured sc mqtt) 0 (worldAfter env (configured sc mqtt) 3 w)) = true)
    (hB : env.IsConnected hubB
      (worldAtTurn env (configured sc mqtt) 1 (worldAfter env (configured sc mqtt) 3 w)) = true) :
    hubEvents hubA (tickTrace env (configured sc mqtt) 1 w)
        = [Event.IsConnected hubA, Event.IsDiscovered hubA, Event.StartDiscovery hubA sc 1,
            Event.IsDiscovered hubA, Event.Connect hubA 20]
    ∧ hubOps (tickTrace env (configured sc mqtt) 3 w)
        = [Event.IsConnected hubA, Event.Drive hubA (-75) (-75) 75 75,
            Event.IsConnected hubB, Event.Drive hubB (-75) (-75) 75 75]
    ∧ (loopBody env (configured sc mqtt) hubA (worldAfter env (configured sc mqtt) 1 w)).1
        = (env.Connect hubA 20
            (env.StartDiscovery hubA sc 1 (worldAfter env (configured sc mqtt) 1 w))).2
    ∧ (loopFrom env (configured sc mqtt) 0 (worldAfter env (configured sc mqtt) 3 w)).1
        = env.Drive hubB (-75) (-75) 75 75
            (env.Drive hubA (-75) (-75) 75 75 (worldAfter env (configured sc mqtt) 3 w)) := by
  refine ⟨?_, ?_, ?_, ?_⟩
  rotate_left 2
  · rw [loopBody_scan_match env (configured sc mqtt) hubA _ hc hd hm]
    rfl
  · rw [worldAtTurn_zero] at hA
    rw [worldAtTurn_one] at hB
    rw [loopFrom_zero, loopBody_connected env _ hubB _ hB, loopBody_connected env _ hubA _ hA]
  · simp only [tickTrace]
    rw [hubEvents_loop, hubEvents_loopBody_other env _ hubA hubB _ hubA_ne_hubB.symm,
      hubEvents_self_scan_match env (configured sc mqtt) hubA _ hc hd hm]
    rfl
  · simp only [tickTrace]
    rw [worldAtTurn_zero] at hA
    rw [worldAtTurn_one] at hB
    rw [hubOps_loop, loopBody_connected env _ hubB _ hB, loopBody_connected env _ hubA _ hA]
    rfl

/-- C7 (amended), at a concrete input: the scripted two-hub scenario, booted by `setup`. -/
theorem C7_scan_match_connects_in_same_tick_witness :
    (setup (Sim.env 1) initialGlobals Sim.scenario).1 = configured 1 false
    ∧ (Sim.env 1).IsDiscovered hubA
        (worldAfter (Sim.env 1) (configured 1 false) 1 Sim.scenario) = false
    ∧ (Sim.env 1).IsDiscovered hubA
        ((Sim.env 1).StartDiscovery hubA 1 1
          (worldAfter (Sim.env 1) (configured 1 false) 1 Sim.scenario)) = true
    ∧ hubEvents hubA (tickTrace (Sim.env 1) (configured 1 false) 1 Sim.scenario)
        = [Event.IsConnected hubA, Event.IsDiscovered hubA, Event.StartDiscovery hubA 1 1,
            Event.IsDiscovered hubA, Event.Connect hubA 20]
    ∧ hubOps (tickTrace (Sim.env 1) (configured 1 false) 3 Sim.scenario)
        = [Event.IsConnected hubA, Event.Drive hubA (-75) (-75) 75 75,
            Event.IsConnected hubB, Event.Drive hubB (-75) (-75) 75 75] :=
  have hc : (Sim.env 1).IsConnected hubA
      (worldAfter (Sim.env 1) (configured 1 false) 1 Sim.scenario) = false := by
    simp only [worldAfter, loop_eq]; rfl
  have hd : (Sim.env 1).IsDiscovered hubA
      (worldAfter (Sim.env 1) (configured 1 false) 1 Sim.scenario) = false := by
    simp only [worldAfter, loop_eq]; rfl
  have hm : (Sim.env 1).IsDiscovered hubA
      ((Sim.env 1).StartDiscovery hubA 1 1
        (worldAfter (Sim.env 1) (configured 1 false) 1 Sim.scenario)) = true := by
    simp only [worldAfter, loop_eq]; rfl
  have hA : (Sim.env 1).IsConnected hubA
      (worldAtTurn (Sim.env 1) (configured 1 false) 0
        (worldAfter (Sim.env 1) (configured 1 false) 3 Sim.scenario)) = true := by
    simp only [worldAfter, worldAtTurn, loop_eq]; rfl
  have hB : (Sim.env 1).IsConnected hubB
      (worldAtTurn (Sim.env 1) (configured 1 false) 1
        (worldAfter (Sim.env 1) (configured 1 false) 3 Sim.scenario)) = true := by
    simp only [worldAfter, worldAtTurn_one, loop_eq]; rfl
  have t := C7_scan_match_connects_in_same_tick (Sim.env 1) 1 false Sim.scenario
    hc hd hm hA hB
  ⟨rfl, hd, hm, t.1, t.2.1⟩

/-- C8: in every iteration the enqueue attempts are made after the sweep and before the
final delay, and there is exactly one, of one status message, when publishing is enabled and
none when it is disabled.  When enabled, the step prints the announcement, calls
`QueueMessage` once, and prints "Queue full" only if the queue rejected; accepted or
rejected, the world handed to the final `delay` is the one `QueueMessage` returned and the
delay is the same.  Publishing is disabled in the initial globals, and `setup` sets up the
publisher and the subscriber exactly when it is enabled. -/
theorem C8_one_enqueue_attempt_when_enabled (env : Env W) (g : Globals) (w w0 : W) :
    (loop env g w).2
        = (loopFrom env g 0 w).2 ++ (publishStep env g (loopFrom env g 0 w).1).2
            ++ [Event.delay (loopDelay env g)]
    ∧ (loopFrom env g 0 w).2.filter Event.isQueueMessage = []
    ∧ (loop env g w).2.filter Event.isQueueMessage
        = (if g.ENABLE_MQTT then
            [Event.QueueMessage
              ("Hello world @ " ++ toString (env.millis (loopFrom env g 0 w).1))]
          else [])
    ∧ (g.ENABLE_MQTT = true →
        (publishStep env g (loopFrom env g 0 w).1).2
            = [Event.println (logLine env (loopFrom env g 0 w).1
                  ("Loop: Queing message ("
                    ++ ("Hello world @ " ++ toString (env.millis (loopFrom env g 0 w).1))
                    ++ ").")),
                Event.QueueMessage
                  ("Hello world @ " ++ toString (env.millis (loopFrom env g 0 w).1))]
              ++ (if (env.QueueMessage
                        ("Hello world @ " ++ toString (env.millis (loopFrom env g 0 w).1))
                        (loopFrom env g 0 w).1).1
                  then []
                  else [Event.println (logLine env
                        (env.QueueMessage
                          ("Hello world @ " ++ toString (env.millis (loopFrom env g 0 w).1))
                          (loopFrom env g 0 w).1).2
                        "Loop: Queue full")])
          ∧ (loop env g w).1
              = env.delay (loopDelay env g)
                  (env.QueueMessage
                    ("Hello world @ " ++ toString (env.millis (loopFrom env g 0 w).1))
                    (loopFrom env g 0 w).1).2)
    ∧ (g.ENABLE_MQTT = false →
        publishStep env g (loopFrom env g 0 w).1 = ((loopFrom env g 0 w).1, [])
          ∧ (loop env g w).1 = env.delay (loopDelay env g) (loopFrom env g 0 w).1)
    ∧ initialGlobals.ENABLE_MQTT = false
    ∧ (setup env g w0).2.2.filter Event.isMqttSetup
        = (if g.ENABLE_MQTT then
            [Event.PublisherSetup g.MQTT_QUEUE_LENGTH,
              Event.SubscriberSetup "rocrail/service/command"]
          else [])
    ∧ (setup env initialGlobals w0).2.2.filter Event.isMqttSetup = [] := by
  refine ⟨rfl, ?_, ?_, ?_, ?_, rfl, ?_, ?_⟩
  · rw [loopFrom_zero]
    simp [queueMessage_calls_loopBody]
  · rw [show (loop env g w).2
        = (loopFrom env g 0 w).2 ++ (publishStep env g (loopFrom env g 0 w).1).2
            ++ [Event.delay (loopDelay env g)] from rfl, loopFrom_zero]
    simp [queueMessage_calls_loopBody, queueMessage_calls_publishStep, Event.isQueueMessage]
  · intro hen
    refine ⟨?_, ?_⟩
    · simp only [publishStep, hen]
      cases (env.QueueMessage
        ("Hello world @ " ++ toString (env.millis (loopFrom env g 0 w).1))
        (loopFrom env g 0 w).1).1 <;> simp
    · simp only [loop, publishStep, hen]
      cases (env.QueueMessage
        ("Hello world @ " ++ toString (env.millis (loopFrom env g 0 w).1))
        (loopFrom env g 0 w).1).1 <;> simp
  · intro hdis
    simp [loop, publishStep, hdis]
  · simp only [setup, setupMqtt]
    split_ifs <;> simp [Event.isMqttSetup]
  · simp [setup, setupMqtt, initialGlobals, Event.isMqttSetup]

/-- C9: the outbound queue created with capacity `N` never holds more than `N` messages,
whatever is enqueued and dequeued; enqueueing into a queue that holds `N` messages is
rejected and returns the very same queue, so nothing grows and nothing is evicted; below
capacity the message is accepted at the back.  With `N = 2`: "m1" and "m2" are accepted,
"m3" is rejected with the two messages kept, the dequeue returns "m1", and "m3" is then
accepted.  The capacity `setup` asks for is `MQTT_QUEUE_LENGTH`, 1000 in the source. -/
theorem C9_queue_never_exceeds_capacity (env : Env W) (w : W) (N : Nat)
    (ops : List OutboundQueue.Op) (m : String) :
    ((OutboundQueue.create N).run ops).messages.length ≤ N
    ∧ ((OutboundQueue.create N).run ops).capacity = N
    ∧ (((OutboundQueue.create N).run ops).messages.length = N →
        ((OutboundQueue.create N).run ops).enqueue m
          = (false, (OutboundQueue.create N).run ops))
    ∧ (((OutboundQueue.create N).run ops).messages.length < N →
        ((OutboundQueue.create N).run ops).enqueue m
          = (true, { capacity := N,
                     messages := ((OutboundQueue.create N).run ops).messages ++ [m] }))
    ∧ (OutboundQueue.create 2).enqueue "m1" = (true, { capacity := 2, messages := ["m1"] })
    ∧ OutboundQueue.enqueue { capacity := 2, messages := ["m1"] } "m2"
        = (true, { capacity := 2, messages := ["m1", "m2"] })
    ∧ OutboundQueue.enqueue { capacity := 2, messages := ["m1", "m2"] } "m3"
        = (false, { capacity := 2, messages := ["m1", "m2"] })
    ∧ OutboundQueue.dequeue { capacity := 2, messages := ["m1", "m2"] }
        = (some "m1", { capacity := 2, messages := ["m2"] })
    ∧ OutboundQueue.enqueue { capacity := 2, messages := ["m2"] } "m3"
        = (true, { capacity := 2, messages := ["m2", "m3"] })
    ∧ initialGlobals.MQTT_QUEUE_LENGTH = 1000
    ∧ (setup env (configured 0 true) w).2.2.filter Event.isMqttSetup
        = [Event.PublisherSetup 1000, Event.SubscriberSetup "rocrail/service/command"] := by
  have hinv := OutboundQueue.run_invariant ops (OutboundQueue.create N)
    (by simp [OutboundQueue.create])
  have hcap : ((OutboundQueue.create N).run ops).capacity = N := hinv.1
  refine ⟨hinv.2, hcap, ?_, ?_, by decide, by decide, by decide, by decide, by decide, rfl, ?_⟩
  · intro hfull
    exact OutboundQueue.enqueue_full _ m (by rw [hcap]; exact hfull)
  · intro hlt
    have hlt2 : ((OutboundQueue.create N).run ops).messages.length
        < ((OutboundQueue.create N).run ops).capacity := by rw [hcap]; exact hlt
    simp [OutboundQueue.enqueue, hcap, hlt]
  · simp [setup, setupMqtt, configured, initialGlobals, Event.isMqttSetup]

/-- C10: every iteration makes exactly one `delay` call, as its last call, after the sweep
and the publishing step, with the same argument whatever the hubs and the queue did.  The
argument is `5 * 1000 / portTICK_PERIOD_MS`; the product 5000 does not overflow 32 bits.
It is 5000 exactly when the tick period is 1; with a tick period of 10 it is 500, and with
a tick period of 3 it is 1666, which is not 5000 even when counted in ticks of 3. -/
theorem C10_delay_is_5000_over_tick_period (env : Env W) (sc : NimBLEScan) (mqtt : Bool)
    (w : W) :
    (loop env (configured sc mqtt) w).2.filter Event.isDelay
        = [Event.delay (5000 / env.portTICK_PERIOD_MS)]
    ∧ (loop env (configured sc mqtt) w).2.getLast?
        = some (Event.delay (5000 / env.portTICK_PERIOD_MS))
    ∧ (loop env (configured sc mqtt) w).1
        = env.delay (5000 / env.portTICK_PERIOD_MS)
            (publishStep env (configured sc mqtt) (loopFrom env (configured sc mqtt) 0 w).1).1
    ∧ (configured sc mqtt).BLE_CONNECT_DELAY_IN_SECONDS * 1000 < UINT32_MOD
    ∧ (5000 / env.portTICK_PERIOD_MS = 5000 ↔ env.portTICK_PERIOD_MS = 1)
    ∧ loopDelay (Sim.env 1) (configured sc mqtt) = 5000
    ∧ loopDelay (Sim.env 10) (configured sc mqtt) = 500
    ∧ loopDelay (Sim.env 3) (configured sc mqtt) = 1666
    ∧ 1666 * 3 ≠ 5000
    ∧ (loop (Sim.env 10) (configured 1 false) Sim.bothIdle).2.filter Event.isDelay
        = [Event.delay 500] := by
  refine ⟨?_, ?_, ?_, by simp [configured, initialGlobals, UINT32_MOD],
    five_thousand_div_eq _, ?_, ?_, ?_, by decide, ?_⟩
  · rw [loop_trace, loopDelay_configured]
    simp [delay_calls_loopBody, delay_calls_publishStep, Event.isDelay]
  · rw [getLast_loop, loopDelay_configured]
  · simp only [loop, loopDelay_configured]
  · rw [loopDelay_configured]; rfl
  · rw [loopDelay_configured]; rfl
  · rw [loopDelay_configured]; rfl
  · rw [loop_eq]; decide

end MTC4SB
